import Mathlib

/-!
Verification of the dialogue manager module (mmworkbench/dialogue.py).

The Python module is shallowly embedded below.  Python dicts keyed by
strings become association lists (`List (String × _)`), Python sets and
frozensets become `List String` (only emptiness and membership matter to
the code under study), and Python exceptions become an explicit `PyError`
value threaded through `Except` or a `(state, Option PyError)` pair where
the original code mutates an object in place.  Handler callables are
modelled by the `Handler` structure: the `id` field stands for the
function object's identity (Python compares function references with
`==`, which is identity for functions), `name` models `__name__`, and
`fn` models the observable effect of invoking the handler (the client
actions it appends to the responder it is given).
-/

/-- Python exception values raised by the embedded code. -/
inductive PyError
  | valueError (msg : String)
  | typeError (msg : String)
  | keyError (key : String)
  | attributeError (msg : String)
  | assertionError (msg : String)
  | indexError (msg : String)
  | notImplementedError
  deriving DecidableEq, Repr

/-- First-match lookup in an association list, modelling Python dict
reads (`d[k]` / `d.get(k)`); model dicts never carry duplicate keys. -/
def lookupStr {α : Type} : List (String × α) → String → Option α
  | [], _ => none
  | (k', v) :: rest, k => if k' = k then some v else lookupStr rest k

/-- Association-list update modelling Python dict assignment
`d[k] = v` (an existing key keeps its position, as in CPython). -/
def setKey {α : Type} : List (String × α) → String → α → List (String × α)
  | [], k, v => [(k, v)]
  | (k', v') :: rest, k, v =>
    if k' = k then (k, v) :: rest else (k', v') :: setKey rest k v

/-- One recognized entity of a request context:
`{'type': ..., 'value': ...}`.  Entity values are modelled as strings
(the shape exercised by the module and its spec). -/
structure ContextEntity where
  type : String
  value : String
  deriving DecidableEq, Repr

/-- A request context: `{'domain': ..., 'intent': ..., 'entities': [...]}`. -/
structure Context where
  domain : String
  intent : String
  entities : List ContextEntity
  deriving DecidableEq, Repr

/-- The fields of a constructed `DialogueStateRule` object.
`entity_types` models the `frozenset` field (as a list of its elements)
and `entity_mappings` models the dict field. -/
structure DialogueStateRule where
  dialogue_state : String
  domain : Option String := none
  intent : Option String := none
  entity_types : Option (List String) := none
  entity_mappings : Option (List (String × String)) := none
  deriving DecidableEq, Repr

/-- The shapes an `entity=` / `entities=` keyword argument can take:
a single string, a list or set of strings, or a type-to-value dict. -/
inductive EntitySpec
  | str (s : String)
  | list (l : List String)
  | set (l : List String)
  | dict (m : List (String × String))
  deriving DecidableEq, Repr

/-- The keyword arguments accepted by `DialogueStateRule.__init__` (via
`**kwargs`).  `domains` and `intents` are included because callers may
pass them; the constructor's `key_kwargs` table lists only `('domain',)`,
`('intent',)` and `('entity', 'entities')`, so `domains`/`intents` are
never read. -/
structure RuleKwargs where
  domain : Option String := none
  domains : Option (List String) := none
  intent : Option String := none
  intents : Option (List String) := none
  entity : Option EntitySpec := none
  entities : Option EntitySpec := none
  deriving DecidableEq, Repr

/-- Models `frozenset((kwargs['entity'],))`: a frozenset whose single
element is the raw argument.  Lists, sets and dicts are unhashable in
Python, so those shapes raise `TypeError`; a string is hashable. -/
def freezeSingle : EntitySpec → Except PyError Unit
  | .str _ => .ok ()
  | .list _ => .error (.typeError "unhashable type: list")
  | .set _ => .error (.typeError "unhashable type: set")
  | .dict _ => .error (.typeError "unhashable type: dict")

/-- Models `DialogueStateRule.__init__(dialogue_state, **kwargs)`.

The `key_kwargs` loop copies `domain` and `intent` through unchanged
(their tuples have length 1, so no frozenset wrapping and no
singular/plural conflict check exists for them; a `domains` or `intents`
keyword is simply never consulted).  For the `('entity', 'entities')`
pair the loop first raises `ValueError` if both are supplied, then
stores `frozenset((entity,))` or `frozenset(entities)` under
`resolved['entities']`.  The subsequent shape dispatch tests
`isinstance` against `str`, `list`, `set` and `dict`; the stored value
is always a `frozenset` (which is none of those four types), so any
entity specification that survives freezing falls through to the final
`else` branch and raises `ValueError`.  Consequently `entity_types` and
`entity_mappings` are `None` on every successfully constructed rule. -/
def DialogueStateRule.mkRule (dialogue_state : String) (kw : RuleKwargs) :
    Except PyError DialogueStateRule :=
  if kw.entity.isSome && kw.entities.isSome then
    .error (.valueError
      "Only one of entity and entities can be sepcified for a dialogue state rule")
  else
    match kw.entity with
    | some spec =>
      match freezeSingle spec with
      | .error e => .error e
      | .ok _ =>
        .error (.valueError "Invalid entity specification for dialogue state rule")
    | none =>
      match kw.entities with
      | some _ =>
        .error (.valueError "Invalid entity specification for dialogue state rule")
      | none =>
        .ok { dialogue_state := dialogue_state, domain := kw.domain,
              intent := kw.intent, entity_types := none, entity_mappings := none }

/-- Models `DialogueStateRule.apply(self, context)`.

The domain and intent checks compare with `!=`.  When `entity_types` is
set, the method builds a local set of entity types and then evaluates
`self.entity_types & context.entity_types`; `context` is a dict and has
no `entity_types` attribute, so this raises `AttributeError`
unconditionally.  When `entity_mappings` is set, the loop condition
`entity['type'] in self.entity_mappings and entity['value'] ==
self.entity_mappings[entity.type]` evaluates `entity.type` (attribute
access on a dict entity) as soon as the left conjunct is true, raising
`AttributeError`; if no entity's type is a mapping key the loop finishes
with an empty `matched_entities` set and the rule matches only if the
mapping itself is empty. -/
def DialogueStateRule.apply (r : DialogueStateRule) (ctx : Context) :
    Except PyError Bool :=
  if r.domain.isSome ∧ r.domain ≠ some ctx.domain then .ok false
  else if r.intent.isSome ∧ r.intent ≠ some ctx.intent then .ok false
  else
    match r.entity_types with
    | some _ => .error (.attributeError "dict object has no attribute entity_types")
    | none =>
      match r.entity_mappings with
      | some m =>
        if ctx.entities.any (fun e => (lookupStr m e.type).isSome) then
          .error (.attributeError "dict object has no attribute type")
        else if 0 < m.length then .ok false
        else .ok true
      | none => .ok true

/-- Python truthiness of an optional string field (`if self.domain:`):
true exactly when the field is set to a non-empty string. -/
def pyTruthyStr : Option String → Bool
  | none => false
  | some s => !(s == "")

/-- Python truthiness of an optional frozenset field. -/
def pyTruthyList : Option (List String) → Bool
  | none => false
  | some l => !l.isEmpty

/-- Python truthiness of an optional dict field. -/
def pyTruthyPairs : Option (List (String × String)) → Bool
  | none => false
  | some m => !m.isEmpty

/-- The bit-flag sum used by `complexity`: `+1`, `+(1 << 1)`,
`+(1 << 2)`, `+(1 << 3)` for the four truthy filter categories. -/
def flagSum (a b c d : Bool) : Nat :=
  (if a then 1 else 0) + (if b then 2 else 0) +
  (if c then 4 else 0) + (if d then 8 else 0)

/-- Models the `DialogueStateRule.complexity` property: each `if` in the
source tests the field's truthiness, not merely its presence. -/
def DialogueStateRule.complexity (r : DialogueStateRule) : Nat :=
  flagSum (pyTruthyStr r.domain) (pyTruthyStr r.intent)
    (pyTruthyList r.entity_types) (pyTruthyPairs r.entity_mappings)

/-- A client action as built by `DialogueResponder._reply`:
`{'name': name, 'message': {'text': message_text}}`.  `respond` appends
the caller's action object verbatim; the claims only ever exercise
actions of this shape. -/
structure ClientAction where
  name : String
  message_text : String
  deriving DecidableEq, Repr

/-- A dialogue state handler callable.  `id` is the Python object
identity (function references are compared with `!=`, which for
functions is identity), `name` is `__name__`, and `fn` gives the client
actions the handler appends to the fresh responder it receives; the
`slots` dict passed alongside is always empty at dispatch time. -/
structure Handler where
  id : Nat
  name : String
  fn : Context → List ClientAction

/-- Python reference comparison of two handler callables. -/
def Handler.ref_eq (a b : Handler) : Bool := a.id == b.id

/-- The `DialogueManager` object state: `handler_map` (a dict) and
`rules` (a list kept sorted by `complexity`). -/
structure DialogueManager where
  handler_map : List (String × Handler)
  rules : List DialogueStateRule

/-- Models `self.rules.append(rule); self.rules.sort(key=lambda x:
x.complexity)` under the invariant that `self.rules` is already sorted:
CPython's `list.sort` is stable, and stably sorting `sorted ++ [rule]`
places `rule` directly after every element whose key is `≤` its own. -/
def insertRule : List DialogueStateRule → DialogueStateRule →
    List DialogueStateRule
  | [], r => [r]
  | x :: rest, r =>
    if x.complexity ≤ r.complexity then x :: insertRule rest r
    else r :: x :: rest

/-- One call to `add_dialogue_rule`: the `name` argument, the `handler`
argument and the `**kwargs`. -/
structure Registration where
  nameArg : Option String
  handlerArg : Option Handler
  kwargs : RuleKwargs

/-- Models `if name is None: name = handler.__name__` — with both
`name` and `handler` equal to `None`, attribute access on `None`
raises `AttributeError`. -/
def Registration.resolvedName (reg : Registration) : Except PyError String :=
  match reg.nameArg, reg.handlerArg with
  | some n, _ => .ok n
  | none, some h => .ok h.name
  | none, none => .error (.attributeError "NoneType object has no attribute name")

/-- The rule a registration constructs
(`rule = DialogueStateRule(name, **kwargs)`). -/
def Registration.rule (reg : Registration) : Except PyError DialogueStateRule :=
  match reg.resolvedName with
  | .error e => .error e
  | .ok n => DialogueStateRule.mkRule n reg.kwargs

/-- Models `DialogueManager.add_dialogue_rule(self, name, handler,
**kwargs)` as a state transformer returning the updated manager and the
exception, if one is raised.  Note the source appends and re-sorts
`self.rules` before the handler-conflict check, so on `AssertionError`
the rule list has already grown; the handler map is only written when
`handler is not None` and no conflicting entry exists. -/
def DialogueManager.add_dialogue_rule (dm : DialogueManager)
    (reg : Registration) : DialogueManager × Option PyError :=
  match reg.rule with
  | .error e => (dm, some e)
  | .ok rule =>
    let rules' := insertRule dm.rules rule
    match reg.handlerArg with
    | none => ({ dm with rules := rules' }, none)
    | some h =>
      match lookupStr dm.handler_map rule.dialogue_state with
      | some old =>
        if old.ref_eq h then
          ({ handler_map := setKey dm.handler_map rule.dialogue_state h,
             rules := rules' }, none)
        else
          ({ dm with rules := rules' },
           some (.assertionError
             ("Handler mapping is overwriting an existing dialogue state: "
               ++ rule.dialogue_state)))
      | none =>
        ({ handler_map := setKey dm.handler_map rule.dialogue_state h,
           rules := rules' }, none)

/-- Runs a sequence of registrations, yielding the final manager when
every one of them succeeds (returns `none` as soon as one raises). -/
def applyRegs : DialogueManager → List Registration → Option DialogueManager
  | dm, [] => some dm
  | dm, reg :: rest =>
    match dm.add_dialogue_rule reg with
    | (dm', none) => applyRegs dm' rest
    | (_, some _) => none

/-- The rules the registrations construct, in registration order
(partial constructions dropped; under `applyRegs` success they all
succeed). -/
def extractRules (regs : List Registration) : List DialogueStateRule :=
  regs.filterMap (fun reg => reg.rule.toOption)

/-- The loop of `apply_handler`: scan `self.rules` in list order, stop
at the first rule whose `apply` returns true (exceptions from `apply`
propagate). -/
def scanRules : List DialogueStateRule → Context → Except PyError (Option String)
  | [], _ => .ok none
  | r :: rest, ctx =>
    match r.apply ctx with
    | .error e => .error e
    | .ok true => .ok (some r.dialogue_state)
    | .ok false => scanRules rest ctx

/-- The value `apply_handler` returns:
`{'dialogue_state': ..., 'client_actions': ...}`. -/
structure DispatchResult where
  dialogue_state : Option String
  client_actions : List ClientAction
  deriving DecidableEq, Repr

/-- Models `DialogueManager.apply_handler(self, context)`.

When no rule matches, the source selects `self._default_handler` and
then calls `handler(context, slots, responder)`; `_default_handler` is a
staticmethod declared with the two parameters `(self, context)`, so the
three-argument call raises `TypeError` before anything is returned.
When a rule matches, the handler is looked up with
`self.handler_map[dialogue_state]` (a missing key raises `KeyError`) and
invoked with a fresh empty slots dict and a fresh responder whose
accumulated actions become `client_actions`. -/
def DialogueManager.apply_handler (dm : DialogueManager) (ctx : Context) :
    Except PyError DispatchResult :=
  match scanRules dm.rules ctx with
  | .error e => .error e
  | .ok none =>
    .error (.typeError "_default_handler takes 2 positional arguments but 3 were given")
  | .ok (some ds) =>
    match lookupStr dm.handler_map ds with
    | none => .error (.keyError ds)
    | some h => .ok { dialogue_state := some ds, client_actions := h.fn ctx }

/-- The opening brace character (written via its code point so that no
brace appears inside a string literal in this file). -/
def lbrace : Char := Char.ofNat 123

/-- The closing brace character. -/
def rbrace : Char := Char.ofNat 125

/-- Scanner state for the `str.format` model: plain text, just after an
opening brace, just after a closing brace, or inside a replacement
field whose name so far is `nm`. -/
inductive FmtState
  | lit
  | sawL
  | sawR
  | fld (nm : List Char)
  deriving DecidableEq, Repr

/-- Models CPython's `text.format(**slots)` for templates whose
replacement fields are plain keyword names — the only form the dialogue
templates use (no attribute access, indexing, conversion or format
spec).  Doubled braces escape to a literal brace; a lone brace is a
`ValueError`; an empty field or an all-digit field name is positional
and raises `IndexError` because `format` is called with keyword
arguments only; a keyword name missing from `slots` raises `KeyError`
with that name. -/
def formatLoop (slots : List (String × String)) :
    FmtState → List Char → Except PyError (List Char)
  | .lit, [] => .ok []
  | .lit, c :: rest =>
    if c = lbrace then formatLoop slots .sawL rest
    else if c = rbrace then formatLoop slots .sawR rest
    else (formatLoop slots .lit rest).map (fun out => c :: out)
  | .sawL, [] => .error (.valueError "Single open brace encountered in format string")
  | .sawL, c :: rest =>
    if c = lbrace then (formatLoop slots .lit rest).map (fun out => lbrace :: out)
    else if c = rbrace then .error (.indexError "Replacement index 0 out of range")
    else formatLoop slots (.fld [c]) rest
  | .sawR, [] => .error (.valueError "Single close brace encountered in format string")
  | .sawR, c :: rest =>
    if c = rbrace then (formatLoop slots .lit rest).map (fun out => rbrace :: out)
    else .error (.valueError "Single close brace encountered in format string")
  | .fld _, [] => .error (.valueError "expected close brace before end of string")
  | .fld nm, c :: rest =>
    if c = rbrace then
      if nm.all Char.isDigit then
        .error (.indexError "Replacement index out of range")
      else
        match lookupStr slots (String.mk nm) with
        | some v => (formatLoop slots .lit rest).map (fun out => v.data ++ out)
        | none => .error (.keyError (String.mk nm))
    else if c = lbrace then
      .error (.valueError "unexpected open brace in field name")
    else formatLoop slots (.fld (nm ++ [c])) rest

/-- `text.format(**slots)` on whole strings. -/
def pyFormat (t : String) (slots : List (String × String)) :
    Except PyError String :=
  (formatLoop slots .lit t.data).map String.mk

/-- The keyword names of a template's replacement fields, in order, or
`none` when the template is not of the simple keyword-field form
handled by `formatLoop` (unbalanced braces, empty or all-digit field
names). -/
def templateKeysLoop : FmtState → List Char → Option (List String)
  | .lit, [] => some []
  | .lit, c :: rest =>
    if c = lbrace then templateKeysLoop .sawL rest
    else if c = rbrace then templateKeysLoop .sawR rest
    else templateKeysLoop .lit rest
  | .sawL, [] => none
  | .sawL, c :: rest =>
    if c = lbrace then templateKeysLoop .lit rest
    else if c = rbrace then none
    else templateKeysLoop (.fld [c]) rest
  | .sawR, [] => none
  | .sawR, c :: rest =>
    if c = rbrace then templateKeysLoop .lit rest else none
  | .fld _, [] => none
  | .fld nm, c :: rest =>
    if c = rbrace then
      if nm.all Char.isDigit then none
      else (templateKeysLoop .lit rest).map (fun ks => String.mk nm :: ks)
    else if c = lbrace then none
    else templateKeysLoop (.fld (nm ++ [c])) rest

/-- The replacement-field keyword names of a template string. -/
def templateKeys (t : String) : Option (List String) :=
  templateKeysLoop .lit t.data

/-- The argument shapes `reply`/`prompt` accept: a single string, or a
tuple, list or set of strings (sets are modelled by the list
`tuple(items)` enumerates them in). -/
inductive TextArg
  | str (s : String)
  | tuple (l : List String)
  | list (l : List String)
  | set (l : List String)
  deriving DecidableEq, Repr

/-- The `DialogueResponder` object state: the slots dict it was built
with and its accumulated `client_actions` list. -/
structure DialogueResponder where
  slots : List (String × String)
  client_actions : List ClientAction
  deriving DecidableEq, Repr

/-- Models `DialogueResponder.respond(self, action)`: append the action
verbatim. -/
def DialogueResponder.respond (r : DialogueResponder) (action : ClientAction) :
    DialogueResponder :=
  { r with client_actions := r.client_actions ++ [action] }

/-- Models `DialogueResponder._choose(items)`.  `idx` stands for the
draw `random.choice` makes: a run of the program corresponds to some
`idx` below the collection's length, and `random.choice` raises
`IndexError` on an empty sequence.  A tuple or list is sampled
directly; a set is converted with `tuple(items)` and sampled; any other
value — in particular a single string — is returned unchanged. -/
def DialogueResponder.choose (items : TextArg) (idx : Nat) :
    Except PyError String :=
  match items with
  | .str s => .ok s
  | .tuple l | .list l | .set l =>
    match l.get? idx with
    | some s => .ok s
    | none => .error (.indexError "Cannot choose from an empty sequence")

/-- Models `DialogueResponder._reply(self, text, action)`: choose a
variant, substitute the slots into it with `str.format`, and append
`{'name': action, 'message': {'text': ...}}` via `respond`.  An
exception from choosing or formatting propagates before `respond` runs,
leaving `client_actions` untouched. -/
def DialogueResponder.replyAux (r : DialogueResponder) (text : TextArg)
    (idx : Nat) (action : String) : DialogueResponder × Option PyError :=
  match DialogueResponder.choose text idx with
  | .error e => (r, some e)
  | .ok t =>
    match pyFormat t r.slots with
    | .error e => (r, some e)
    | .ok ft => (r.respond { name := action, message_text := ft }, none)

/-- Models `DialogueResponder.reply(self, text)`. -/
def DialogueResponder.reply (r : DialogueResponder) (text : TextArg)
    (idx : Nat) : DialogueResponder × Option PyError :=
  r.replyAux text idx "show-reply"

/-- Models `DialogueResponder.prompt(self, text)`. -/
def DialogueResponder.prompt (r : DialogueResponder) (text : TextArg)
    (idx : Nat) : DialogueResponder × Option PyError :=
  r.replyAux text idx "show-prompt"

/-- Models `DialogueResponder.show(self, things)`. -/
def DialogueResponder.show (_ : DialogueResponder) :
    Except PyError Unit :=
  .error .notImplementedError

/-- The rule list is sorted by ascending `complexity`. -/
def rulesSorted (l : List DialogueStateRule) : Prop :=
  List.Pairwise (fun a b => a.complexity ≤ b.complexity) l

/-- C1: in Scenario A, a domain-only rule (specificity 1) and a
domain-plus-intent rule (specificity 3) registered in that order leave
the rule list sorted `[domain-only, domain-and-intent]`, and dispatching
`{domain: weather, intent: forecast, entities: []}` selects the
domain-only rule's state name: the scan runs in ascending specificity
and stops at the first rule whose `apply` is true, never reaching the
more specific rule. -/
theorem scenario_a_least_specific_rule_wins :
    ((applyRegs ⟨[], []⟩
        [⟨some "weather_state", some ⟨1, "weather_handler", fun _ => []⟩,
          { domain := some "weather" }⟩,
         ⟨some "forecast_state", some ⟨2, "forecast_handler", fun _ => []⟩,
          { domain := some "weather", intent := some "forecast" }⟩]).map
        (fun dm => dm.rules.map (fun r => r.dialogue_state))
      = some ["weather_state", "forecast_state"]) ∧
    ((applyRegs ⟨[], []⟩
        [⟨some "weather_state", some ⟨1, "weather_handler", fun _ => []⟩,
          { domain := some "weather" }⟩,
         ⟨some "forecast_state", some ⟨2, "forecast_handler", fun _ => []⟩,
          { domain := some "weather", intent := some "forecast" }⟩]).map
        (fun dm => dm.apply_handler ⟨"weather", "forecast", []⟩)
      = some (.ok ⟨some "weather_state", []⟩)) :=
  ⟨rfl, rfl⟩

/-- C2: a context matching no rule does not return
`{dialogue_state: null, client_actions: []}`; the code selects
`_default_handler` — a staticmethod declared `(self, context)` — and the
three-argument call `handler(context, slots, responder)` raises
`TypeError`.  This theorem evaluates the code at the failing input. -/
theorem dispatch_no_match_raises_type_error :
    DialogueManager.apply_handler ⟨[], []⟩ ⟨"weather", "forecast", []⟩ =
      .error (.typeError
        "_default_handler takes 2 positional arguments but 3 were given") :=
  rfl

/-- C3: a rule with `entities={city: Paris}` cannot even be
constructed — the constructor wraps the dict in `frozenset(...)` (its
keys) and the shape dispatch recognizes no frozenset, raising
`ValueError`; and a rule whose `entity_mappings` field is populated
directly still raises `AttributeError` from `entity.type` on the
matching Paris context instead of returning true. -/
theorem entity_value_rule_construction_fails :
    DialogueStateRule.mkRule "city_state"
        { entities := some (.dict [("city", "Paris")]) }
      = .error (.valueError "Invalid entity specification for dialogue state rule") ∧
    DialogueStateRule.apply
        ⟨"city_state", none, none, none, some [("city", "Paris")]⟩
        ⟨"weather", "forecast", [⟨"city", "Paris"⟩]⟩
      = .error (.attributeError "dict object has no attribute type") :=
  ⟨rfl, rfl⟩

/-- C4: a rule with `entities=[city, date]` cannot be constructed —
the constructor wraps the list in `frozenset(...)` and the shape
dispatch recognizes no frozenset, raising `ValueError`; and a rule
whose `entity_types` field is populated directly raises
`AttributeError` from `context.entity_types` on a context holding both
required types (plus an unrelated one) instead of returning true. -/
theorem entity_type_rule_construction_fails :
    DialogueStateRule.mkRule "plan_state"
        { entities := some (.list ["city", "date"]) }
      = .error (.valueError "Invalid entity specification for dialogue state rule") ∧
    DialogueStateRule.apply
        ⟨"plan_state", none, none, some ["city", "date"], none⟩
        ⟨"travel", "plan",
          [⟨"city", "Rome"⟩, ⟨"date", "today"⟩, ⟨"currency", "eur"⟩]⟩
      = .error (.attributeError "dict object has no attribute entity_types") :=
  ⟨rfl, rfl⟩

/-- C5 counterexample: a rule constructed with `domain=""` has its
domain filter present (`is not None`) yet `complexity = 0`, because the
source tests truthiness (`if self.domain:`), not presence; so the
specificity is not `+1` for a present domain filter as claimed. -/
theorem complexity_empty_domain_filter_cx :
    DialogueStateRule.mkRule "greet" { domain := some "" }
      = .ok { dialogue_state := "greet", domain := some "" } ∧
    ({ dialogue_state := "greet", domain := some "" } :
        DialogueStateRule).domain.isSome = true ∧
    ({ dialogue_state := "greet", domain := some "" } :
        DialogueStateRule).complexity = 0 :=
  ⟨rfl, rfl, rfl⟩

/-- The bit-flag sum is bounded by 15, monotone in its flags, and
injective on flag subsets. -/
theorem flagSum_props (a b c d a' b' c' d' : Bool) :
    flagSum a b c d ≤ 15 ∧
    ((a = true → a' = true) → (b = true → b' = true) →
      (c = true → c' = true) → (d = true → d' = true) →
      flagSum a b c d ≤ flagSum a' b' c' d') ∧
    (flagSum a b c d = flagSum a' b' c' d' →
      a = a' ∧ b = b' ∧ c = c' ∧ d = d') := by
  cases a <;> cases b <;> cases c <;> cases d <;>
    cases a' <;> cases b' <;> cases c' <;> cases d' <;> decide

/-- C5 amended: the derived specificity equals the bit-flag sum +1/+2/
+4/+8 over the four filter categories that are present *and non-empty*
(Python truthiness); it lies in 0–15, adding any truthy filter category
never decreases it, and every subset of truthy categories yields a
unique sum. -/
theorem complexity_truthy_bitflags (r r' : DialogueStateRule) :
    r.complexity = flagSum (pyTruthyStr r.domain) (pyTruthyStr r.intent)
      (pyTruthyList r.entity_types) (pyTruthyPairs r.entity_mappings) ∧
    r.complexity ≤ 15 ∧
    ((pyTruthyStr r.domain = true → pyTruthyStr r'.domain = true) →
      (pyTruthyStr r.intent = true → pyTruthyStr r'.intent = true) →
      (pyTruthyList r.entity_types = true → pyTruthyList r'.entity_types = true) →
      (pyTruthyPairs r.entity_mappings = true →
        pyTruthyPairs r'.entity_mappings = true) →
      r.complexity ≤ r'.complexity) ∧
    (r.complexity = r'.complexity →
      pyTruthyStr r.domain = pyTruthyStr r'.domain ∧
      pyTruthyStr r.intent = pyTruthyStr r'.intent ∧
      pyTruthyList r.entity_types = pyTruthyList r'.entity_types ∧
      pyTruthyPairs r.entity_mappings = pyTruthyPairs r'.entity_mappings) := by
  refine ⟨rfl, ?_⟩
  exact flagSum_props (pyTruthyStr r.domain) (pyTruthyStr r.intent)
    (pyTruthyList r.entity_types) (pyTruthyPairs r.entity_mappings)
    (pyTruthyStr r'.domain) (pyTruthyStr r'.intent)
    (pyTruthyList r'.entity_types) (pyTruthyPairs r'.entity_mappings)

/-- C5 amended, instantiated at a domain-only rule and a
domain-and-intent rule. -/
theorem complexity_truthy_bitflags_witness :
    (⟨"a", some "x", none, none, none⟩ : DialogueStateRule).complexity
      = flagSum (pyTruthyStr (some "x")) (pyTruthyStr none)
          (pyTruthyList none) (pyTruthyPairs none) ∧
    (⟨"a", some "x", none, none, none⟩ : DialogueStateRule).complexity ≤ 15 ∧
    ((pyTruthyStr (some "x") = true → pyTruthyStr (some "x") = true) →
      (pyTruthyStr (none : Option String) = true → pyTruthyStr (some "y") = true) →
      (pyTruthyList none = true → pyTruthyList none = true) →
      (pyTruthyPairs none = true → pyTruthyPairs none = true) →
      (⟨"a", some "x", none, none, none⟩ : DialogueStateRule).complexity ≤
        (⟨"b", some "x", some "y", none, none⟩ : DialogueStateRule).complexity) ∧
    ((⟨"a", some "x", none, none, none⟩ : DialogueStateRule).complexity =
        (⟨"b", some "x", some "y", none, none⟩ : DialogueStateRule).complexity →
      pyTruthyStr (some "x") = pyTruthyStr (some "x") ∧
      pyTruthyStr (none : Option String) = pyTruthyStr (some "y") ∧
      pyTruthyList none = pyTruthyList none ∧
      pyTruthyPairs none = pyTruthyPairs none) :=
  complexity_truthy_bitflags ⟨"a", some "x", none, none, none⟩
    ⟨"b", some "x", some "y", none, none⟩

/-- C8 counterexample: supplying both `domain` and `domains` (and,
independently, both `intent` and `intents`) does not raise — the
constructor's `key_kwargs` table has no plural entry for either, so the
plural keyword is silently ignored and the rule is built. -/
theorem domains_both_supplied_no_error_cx :
    DialogueStateRule.mkRule "s"
        { domain := some "weather", domains := some ["sports"] }
      = .ok { dialogue_state := "s", domain := some "weather" } ∧
    DialogueStateRule.mkRule "s"
        { intent := some "check", intents := some ["book"] }
      = .ok { dialogue_state := "s", intent := some "check" } :=
  ⟨rfl, rfl⟩

/-- C8 amended: rule construction fails with `ValueError` when both
`entity` and `entities` are supplied, and the error is raised inside
`add_dialogue_rule` before the rule list or handler map is touched;
`domain`/`domains` and `intent`/`intents` have no such check (the
plural keyword is ignored, see the counterexample). -/
theorem entity_entities_conflict_raises (dm : DialogueManager) (n : String)
    (hdl : Option Handler) (kw : RuleKwargs)
    (he : kw.entity.isSome = true) (hes : kw.entities.isSome = true) :
    DialogueStateRule.mkRule n kw
      = .error (.valueError
        "Only one of entity and entities can be sepcified for a dialogue state rule") ∧
    dm.add_dialogue_rule ⟨some n, hdl, kw⟩
      = (dm, some (.valueError
        "Only one of entity and entities can be sepcified for a dialogue state rule")) := by
  have hmk : DialogueStateRule.mkRule n kw
      = .error (.valueError
        "Only one of entity and entities can be sepcified for a dialogue state rule") := by
    unfold DialogueStateRule.mkRule
    simp [he, hes]
  refine ⟨hmk, ?_⟩
  unfold DialogueManager.add_dialogue_rule Registration.rule
    Registration.resolvedName
  simp [hmk]

/-- C8 amended, instantiated: a single-string `entity` together with a
dict `entities` raises at registration time and leaves the manager
unchanged. -/
theorem entity_entities_conflict_raises_witness :
    DialogueStateRule.mkRule "place"
        { entity := some (.str "city"),
          entities := some (.dict [("city", "Paris")]) }
      = .error (.valueError
        "Only one of entity and entities can be sepcified for a dialogue state rule") ∧
    DialogueManager.add_dialogue_rule ⟨[], []⟩
        ⟨some "place", none,
          { entity := some (.str "city"),
            entities := some (.dict [("city", "Paris")]) }⟩
      = (⟨[], []⟩, some (.valueError
        "Only one of entity and entities can be sepcified for a dialogue state rule")) :=
  entity_entities_conflict_raises ⟨[], []⟩ "place" none
    { entity := some (.str "city"),
      entities := some (.dict [("city", "Paris")]) } rfl rfl

/-- A successfully constructed rule carries the state name it was
constructed with. -/
theorem mkRule_dialogue_state (n : String) (kw : RuleKwargs)
    (r : DialogueStateRule) (h : DialogueStateRule.mkRule n kw = .ok r) :
    r.dialogue_state = n := by
  unfold DialogueStateRule.mkRule at h
  split at h
  · exact absurd h (by simp)
  · split at h
    · split at h <;> simp_all
    · split at h <;> simp_all
      exact h.symm ▸ rfl

/-- Updating a key and reading it back yields the new value. -/
theorem lookupStr_setKey_self {α : Type} (m : List (String × α)) (k : String)
    (v : α) : lookupStr (setKey m k v) k = some v := by
  induction m with
  | nil => simp [setKey, lookupStr]
  | cons p rest ih =>
    by_cases hk : p.1 = k
    · simp [setKey, hk, lookupStr]
    · simp [setKey, hk, lookupStr, ih]

/-- C7: registering a state name that already maps to a handler raises
`AssertionError` at registration time when the new handler reference
differs from the existing one, and succeeds silently (re-writing the
same reference into the map) when it is identical. -/
theorem handler_conflict_check (dm : DialogueManager) (n : String)
    (h h' : Handler) (kw : RuleKwargs) (r : DialogueStateRule)
    (hold : lookupStr dm.handler_map n = some h)
    (hmk : DialogueStateRule.mkRule n kw = .ok r) :
    (h.ref_eq h' = false →
      (dm.add_dialogue_rule ⟨some n, some h', kw⟩).2
        = some (.assertionError
          ("Handler mapping is overwriting an existing dialogue state: " ++ n))) ∧
    ((dm.add_dialogue_rule ⟨some n, some h, kw⟩).2 = none ∧
      lookupStr (dm.add_dialogue_rule ⟨some n, some h, kw⟩).1.handler_map n
        = some h) := by
  have hds : r.dialogue_state = n := mkRule_dialogue_state n kw r hmk
  have hrule : Registration.rule ⟨some n, some h', kw⟩ = .ok r := by
    unfold Registration.rule Registration.resolvedName
    simpa using hmk
  have hrule2 : Registration.rule ⟨some n, some h, kw⟩ = .ok r := by
    unfold Registration.rule Registration.resolvedName
    simpa using hmk
  have hrefl : h.ref_eq h = true := by
    simp [Handler.ref_eq]
  constructor
  · intro hne
    unfold DialogueManager.add_dialogue_rule
    simp [hrule, hds, hold, hne]
  · unfold DialogueManager.add_dialogue_rule
    simp [hrule2, hds, hold, hrefl, lookupStr_setKey_self]

/-- C7 instantiated: with `greet` already mapped to one handler,
registering a different handler object for `greet` raises and
registering the identical handler object succeeds. -/
theorem handler_conflict_check_witness :
    ((⟨0, "greet", fun _ => []⟩ : Handler).ref_eq ⟨1, "greet2", fun _ => []⟩
        = false →
      (DialogueManager.add_dialogue_rule
          ⟨[("greet", ⟨0, "greet", fun _ => []⟩)], []⟩
          ⟨some "greet", some ⟨1, "greet2", fun _ => []⟩, {}⟩).2
        = some (.assertionError
          ("Handler mapping is overwriting an existing dialogue state: " ++ "greet"))) ∧
    ((DialogueManager.add_dialogue_rule
        ⟨[("greet", ⟨0, "greet", fun _ => []⟩)], []⟩
        ⟨some "greet", some ⟨0, "greet", fun _ => []⟩, {}⟩).2 = none ∧
      lookupStr (DialogueManager.add_dialogue_rule
          ⟨[("greet", ⟨0, "greet", fun _ => []⟩)], []⟩
          ⟨some "greet", some ⟨0, "greet", fun _ => []⟩, {}⟩).1.handler_map
          "greet"
        = some ⟨0, "greet", fun _ => []⟩) :=
  handler_conflict_check ⟨[("greet", ⟨0, "greet", fun _ => []⟩)], []⟩ "greet"
    ⟨0, "greet", fun _ => []⟩ ⟨1, "greet2", fun _ => []⟩ {}
    ⟨"greet", none, none, none, none⟩ rfl rfl

/-- Membership in an insertion. -/
theorem mem_insertRule (l : List DialogueStateRule) (r y : DialogueStateRule) :
    y ∈ insertRule l r ↔ y = r ∨ y ∈ l := by
  induction l with
  | nil => simp [insertRule]
  | cons x rest ih =>
    by_cases hc : x.complexity ≤ r.complexity
    · simp only [insertRule, if_pos hc, List.mem_cons, ih]
      tauto
    · simp only [insertRule, if_neg hc, List.mem_cons]

/-- Stable insertion preserves sortedness by complexity. -/
theorem rulesSorted_insertRule {l : List DialogueStateRule}
    (r : DialogueStateRule) (hs : rulesSorted l) :
    rulesSorted (insertRule l r) := by
  induction l with
  | nil =>
    simp [insertRule, rulesSorted]
  | cons x rest ih =>
    rw [rulesSorted, List.pairwise_cons] at hs
    obtain ⟨hx, hrest⟩ := hs
    by_cases hc : x.complexity ≤ r.complexity
    · rw [rulesSorted]
      simp only [insertRule, if_pos hc]
      rw [List.pairwise_cons]
      refine ⟨?_, ih hrest⟩
      intro y hy
      rcases (mem_insertRule rest r y).1 hy with h | h
      · exact h ▸ hc
      · exact hx y h
    · rw [rulesSorted]
      simp only [insertRule, if_neg hc]
      rw [List.pairwise_cons]
      have hrx : r.complexity ≤ x.complexity :=
        Nat.le_of_lt (Nat.lt_of_not_le hc)
      refine ⟨?_, List.pairwise_cons.mpr ⟨hx, hrest⟩⟩
      intro y hy
      rcases List.mem_cons.mp hy with h | h
      · exact h ▸ hrx
      · exact Nat.le_trans hrx (hx y h)

/-- Stability of one insertion into a sorted list: the inserted rule
lands at the end of its own complexity class and every other class is
untouched. -/
theorem insertRule_filter (l : List DialogueStateRule)
    (r : DialogueStateRule) (c : Nat) (hs : rulesSorted l) :
    (insertRule l r).filter (fun x => x.complexity == c)
      = if r.complexity = c
        then l.filter (fun x => x.complexity == c) ++ [r]
        else l.filter (fun x => x.complexity == c) := by
  induction l with
  | nil =>
    by_cases hrc : r.complexity = c <;> simp [insertRule, hrc]
  | cons x rest ih =>
    rw [rulesSorted, List.pairwise_cons] at hs
    obtain ⟨hx, hrest⟩ := hs
    by_cases hcle : x.complexity ≤ r.complexity
    · have ih' := ih hrest
      have hins : insertRule (x :: rest) r = x :: insertRule rest r := by
        simp [insertRule, hcle]
      rw [hins, List.filter_cons]
      by_cases hxc : x.complexity = c <;>
        by_cases hrc : r.complexity = c <;>
          simp [hxc, hrc, ih', List.filter_cons]
    · have hlt : r.complexity < x.complexity := Nat.lt_of_not_le hcle
      have hins : insertRule (x :: rest) r = r :: x :: rest := by
        simp [insertRule, hcle]
      by_cases hrc : r.complexity = c
      · have hnil : rest.filter (fun y => y.complexity == c) = [] := by
          rw [List.filter_eq_nil_iff]
          intro y hy
          have hyc : c < y.complexity :=
            Nat.lt_of_lt_of_le (hrc ▸ hlt) (hx y hy)
          simp only [beq_iff_eq]
          omega
        have hxn : ¬ x.complexity = c := by omega
        simp [hins, List.filter_cons, hrc, hxn, hnil]
      · simp [hins, List.filter_cons, hrc]

/-- Folding stable insertions over a sorted initial list preserves
sortedness. -/
theorem rulesSorted_foldl (rs : List DialogueStateRule) :
    ∀ init, rulesSorted init →
      rulesSorted (List.foldl insertRule init rs) := by
  induction rs with
  | nil => intro init h; simpa using h
  | cons r rest ih =>
    intro init h
    exact ih _ (rulesSorted_insertRule r h)

/-- Stability of the whole fold: each complexity class of the result is
the initial class followed by the inserted rules of that class, in
insertion order. -/
theorem foldl_insertRule_filter (rs : List DialogueStateRule) :
    ∀ init, rulesSorted init → ∀ c,
      (List.foldl insertRule init rs).filter (fun x => x.complexity == c)
        = init.filter (fun x => x.complexity == c)
          ++ rs.filter (fun x => x.complexity == c) := by
  induction rs with
  | nil => intro init _ c; simp
  | cons r rest ih =>
    intro init hs c
    rw [List.foldl_cons, ih _ (rulesSorted_insertRule r hs) c,
      insertRule_filter _ _ _ hs]
    by_cases hrc : r.complexity = c <;>
      simp [hrc, List.filter_cons]

/-- A successful `add_dialogue_rule` call constructs its rule and
stably inserts it into the rule list. -/
theorem add_success_rules (dm dm' : DialogueManager) (reg : Registration)
    (h : dm.add_dialogue_rule reg = (dm', none)) :
    ∃ r, reg.rule = .ok r ∧ dm'.rules = insertRule dm.rules r := by
  cases hr : reg.rule with
  | error e =>
    have hv : dm.add_dialogue_rule reg = (dm, some e) := by
      simp [DialogueManager.add_dialogue_rule, hr]
    rw [hv] at h
    injection h with h1 h2
    exact absurd h2 (by simp)
  | ok r =>
    refine ⟨r, rfl, ?_⟩
    cases hh : reg.handlerArg with
    | none =>
      have hv : dm.add_dialogue_rule reg
          = ({ dm with rules := insertRule dm.rules r }, none) := by
        simp [DialogueManager.add_dialogue_rule, hr, hh]
      rw [hv] at h
      injection h with h1 h2
      rw [← h1]
    | some hd =>
      cases hl : lookupStr dm.handler_map r.dialogue_state with
      | some old =>
        by_cases hre : old.ref_eq hd
        · have hv : dm.add_dialogue_rule reg
              = ({ handler_map := setKey dm.handler_map r.dialogue_state hd,
                   rules := insertRule dm.rules r }, none) := by
            simp [DialogueManager.add_dialogue_rule, hr, hh, hl, hre]
          rw [hv] at h
          injection h with h1 h2
          rw [← h1]
        · have hv : (dm.add_dialogue_rule reg).2
              = some (.assertionError
                ("Handler mapping is overwriting an existing dialogue state: "
                  ++ r.dialogue_state)) := by
            simp [DialogueManager.add_dialogue_rule, hr, hh, hl, hre]
          rw [h] at hv
          exact absurd hv (by simp)
      | none =>
        have hv : dm.add_dialogue_rule reg
            = ({ handler_map := setKey dm.handler_map r.dialogue_state hd,
                 rules := insertRule dm.rules r }, none) := by
          simp [DialogueManager.add_dialogue_rule, hr, hh, hl]
        rw [hv] at h
        injection h with h1 h2
        rw [← h1]

/-- After a fully successful registration sequence the rule list is the
fold of stable insertions of the constructed rules, in registration
order. -/
theorem applyRegs_rules (regs : List Registration) :
    ∀ dm dm', applyRegs dm regs = some dm' →
      dm'.rules = List.foldl insertRule dm.rules (extractRules regs) := by
  induction regs with
  | nil =>
    intro dm dm' h
    simp [applyRegs] at h
    rw [← h]
    simp [extractRules]
  | cons reg rest ih =>
    intro dm dm' h
    unfold applyRegs at h
    cases ha : dm.add_dialogue_rule reg with
    | mk dm1 err =>
      rw [ha] at h
      cases err with
      | some e => simp at h
      | none =>
        obtain ⟨r, hr, hrules⟩ := add_success_rules dm dm1 reg ha
        rw [ih dm1 dm' h, hrules]
        simp [extractRules, List.filterMap_cons, hr, Except.toOption]

/-- C6: after every sequence of successful registrations, the
dispatcher's rule list is sorted by ascending specificity, and the sort
is stable — each complexity class appears in registration order. -/
theorem manager_rules_sorted_stable (regs : List Registration)
    (dm : DialogueManager) (h : applyRegs ⟨[], []⟩ regs = some dm) :
    rulesSorted dm.rules ∧
    ∀ c, dm.rules.filter (fun r => r.complexity == c)
      = (extractRules regs).filter (fun r => r.complexity == c) := by
  have hrules := applyRegs_rules regs ⟨[], []⟩ dm h
  constructor
  · rw [hrules]
    exact rulesSorted_foldl _ _ (by simp [rulesSorted])
  · intro c
    rw [hrules, foldl_insertRule_filter _ _ (by simp [rulesSorted]) c]
    simp

/-- C6 instantiated: two equal-specificity (domain-only) rules keep
their registration order. -/
theorem manager_rules_sorted_stable_witness :
    rulesSorted (DialogueManager.mk []
      [⟨"a_state", some "alpha", none, none, none⟩,
       ⟨"b_state", some "beta", none, none, none⟩]).rules ∧
    ∀ c, (DialogueManager.mk []
        [⟨"a_state", some "alpha", none, none, none⟩,
         ⟨"b_state", some "beta", none, none, none⟩]).rules.filter
        (fun r => r.complexity == c)
      = (extractRules
          [⟨some "a_state", none, { domain := some "alpha" }⟩,
           ⟨some "b_state", none, { domain := some "beta" }⟩]).filter
          (fun r => r.complexity == c) :=
  manager_rules_sorted_stable
    [⟨some "a_state", none, { domain := some "alpha" }⟩,
     ⟨some "b_state", none, { domain := some "beta" }⟩]
    (DialogueManager.mk []
      [⟨"a_state", some "alpha", none, none, none⟩,
       ⟨"b_state", some "beta", none, none, none⟩]) rfl

/-- A successful `_choose` draw yields the single string unchanged, or
a member of the collection. -/
theorem choose_mem (text : TextArg) (idx : Nat) (t : String)
    (hc : DialogueResponder.choose text idx = .ok t) :
    (match text with
     | .str s => t = s
     | .tuple l => t ∈ l
     | .list l => t ∈ l
     | .set l => t ∈ l) := by
  cases text with
  | str s =>
    simp only [DialogueResponder.choose, Except.ok.injEq] at hc
    exact hc.symm
  | tuple l =>
    simp only [DialogueResponder.choose] at hc
    cases hg : l.get? idx with
    | some s =>
      rw [hg] at hc
      injection hc with h
      exact h ▸ List.get?_mem hg
    | none => rw [hg] at hc; exact absurd hc (by simp)
  | list l =>
    simp only [DialogueResponder.choose] at hc
    cases hg : l.get? idx with
    | some s =>
      rw [hg] at hc
      injection hc with h
      exact h ▸ List.get?_mem hg
    | none => rw [hg] at hc; exact absurd hc (by simp)
  | set l =>
    simp only [DialogueResponder.choose] at hc
    cases hg : l.get? idx with
    | some s =>
      rw [hg] at hc
      injection hc with h
      exact h ▸ List.get?_mem hg
    | none => rw [hg] at hc; exact absurd hc (by simp)

/-- C9: a `reply` call whose draw and formatting succeed appends
exactly one `show-reply` action (and `prompt` one `show-prompt`
action) to the end of `client_actions`, whose text is the chosen
variant with slots substituted by `str.format`; the chosen variant is
the input itself for a single string and a member of the collection
for a tuple, list or set. -/
theorem reply_appends_one_action (r : DialogueResponder) (text : TextArg)
    (idx : Nat) (t ft : String)
    (hc : DialogueResponder.choose text idx = .ok t)
    (hf : pyFormat t r.slots = .ok ft) :
    r.reply text idx
      = ({ r with client_actions :=
            r.client_actions ++ [⟨"show-reply", ft⟩] }, none) ∧
    r.prompt text idx
      = ({ r with client_actions :=
            r.client_actions ++ [⟨"show-prompt", ft⟩] }, none) ∧
    (match text with
     | .str s => t = s
     | .tuple l => t ∈ l
     | .list l => t ∈ l
     | .set l => t ∈ l) := by
  refine ⟨?_, ?_, choose_mem text idx t hc⟩ <;>
    simp [DialogueResponder.reply, DialogueResponder.prompt,
      DialogueResponder.replyAux, hc, hf, DialogueResponder.respond]

/-- C9 instantiated: Scenario D's tuple of greetings with
`slots={name: Ana}`, drawing the first variant. -/
theorem reply_appends_one_action_witness :
    (⟨[("name", "Ana")], []⟩ : DialogueResponder).reply
        (.tuple ["Hi {name}", "Hello {name}"]) 0
      = (⟨[("name", "Ana")], [⟨"show-reply", "Hi Ana"⟩]⟩, none) ∧
    (⟨[("name", "Ana")], []⟩ : DialogueResponder).prompt
        (.tuple ["Hi {name}", "Hello {name}"]) 0
      = (⟨[("name", "Ana")], [⟨"show-prompt", "Hi Ana"⟩]⟩, none) ∧
    "Hi {name}" ∈ ["Hi {name}", "Hello {name}"] :=
  reply_appends_one_action ⟨[("name", "Ana")], []⟩
    (.tuple ["Hi {name}", "Hello {name}"]) 0 "Hi {name}" "Hi Ana" rfl rfl

/-- If a well-formed template mentions a keyword missing from the
slots, `formatLoop` raises a `KeyError` (for the first missing
keyword it reaches). -/
theorem formatLoop_missing_key (slots : List (String × String))
    (k : String) (hm : lookupStr slots k = none) :
    ∀ (l : List Char) (st : FmtState) (ks : List String),
      templateKeysLoop st l = some ks → k ∈ ks →
      ∃ k0, formatLoop slots st l = .error (.keyError k0) := by
  intro l
  induction l with
  | nil =>
    intro st ks htk hk
    cases st with
    | lit =>
      simp only [templateKeysLoop, Option.some.injEq] at htk
      rw [← htk] at hk
      exact absurd hk (by simp)
    | sawL => exact absurd htk (by simp [templateKeysLoop])
    | sawR => exact absurd htk (by simp [templateKeysLoop])
    | fld nm => exact absurd htk (by simp [templateKeysLoop])
  | cons c rest ih =>
    intro st ks htk hk
    cases st with
    | lit =>
      by_cases h1 : c = lbrace
      · simp only [templateKeysLoop, if_pos h1] at htk
        obtain ⟨k0, hk0⟩ := ih .sawL ks htk hk
        exact ⟨k0, by simp only [formatLoop, if_pos h1]; exact hk0⟩
      · by_cases h2 : c = rbrace
        · simp only [templateKeysLoop, if_neg h1, if_pos h2] at htk
          obtain ⟨k0, hk0⟩ := ih .sawR ks htk hk
          exact ⟨k0, by simp only [formatLoop, if_neg h1, if_pos h2]; exact hk0⟩
        · simp only [templateKeysLoop, if_neg h1, if_neg h2] at htk
          obtain ⟨k0, hk0⟩ := ih .lit ks htk hk
          refine ⟨k0, ?_⟩
          simp only [formatLoop, if_neg h1, if_neg h2, hk0]
          rfl
    | sawL =>
      by_cases h1 : c = lbrace
      · simp only [templateKeysLoop, if_pos h1] at htk
        obtain ⟨k0, hk0⟩ := ih .lit ks htk hk
        refine ⟨k0, ?_⟩
        simp only [formatLoop, if_pos h1, hk0]
        rfl
      · by_cases h2 : c = rbrace
        · simp only [templateKeysLoop, if_neg h1, if_pos h2] at htk
          exact absurd htk (by simp)
        · simp only [templateKeysLoop, if_neg h1, if_neg h2] at htk
          obtain ⟨k0, hk0⟩ := ih (.fld [c]) ks htk hk
          exact ⟨k0, by simp only [formatLoop, if_neg h1, if_neg h2]; exact hk0⟩
    | sawR =>
      by_cases h2 : c = rbrace
      · simp only [templateKeysLoop, if_pos h2] at htk
        obtain ⟨k0, hk0⟩ := ih .lit ks htk hk
        refine ⟨k0, ?_⟩
        simp only [formatLoop, if_pos h2, hk0]
        rfl
      · simp only [templateKeysLoop, if_neg h2] at htk
        exact absurd htk (by simp)
    | fld nm =>
      by_cases h1 : c = rbrace
      · simp only [templateKeysLoop, if_pos h1] at htk
        by_cases hd : nm.all Char.isDigit
        · rw [if_pos hd] at htk
          exact absurd htk (by simp)
        · rw [if_neg hd] at htk
          cases hrec : templateKeysLoop .lit rest with
          | none => rw [hrec] at htk; exact absurd htk (by simp)
          | some ks' =>
            rw [hrec] at htk
            simp only [Option.map_some', Option.some.injEq] at htk
            cases hl : lookupStr slots (String.mk nm) with
            | none =>
              refine ⟨String.mk nm, ?_⟩
              simp only [formatLoop, if_pos h1, if_neg hd, hl]
            | some v =>
              have hkks' : k ∈ ks' := by
                rw [← htk] at hk
                rcases List.mem_cons.mp hk with h | h
                · rw [h] at hm
                  rw [hm] at hl
                  exact absurd hl (by simp)
                · exact h
              obtain ⟨k0, hk0⟩ := ih .lit ks' hrec hkks'
              refine ⟨k0, ?_⟩
              simp only [formatLoop, if_pos h1, if_neg hd, hl, hk0]
              rfl
      · by_cases h2 : c = lbrace
        · simp only [templateKeysLoop, if_neg h1, if_pos h2] at htk
          exact absurd htk (by simp)
        · simp only [templateKeysLoop, if_neg h1, if_neg h2] at htk
          obtain ⟨k0, hk0⟩ := ih (.fld (nm ++ [c])) ks htk hk
          exact ⟨k0, by simp only [formatLoop, if_neg h1, if_neg h2]; exact hk0⟩

/-- C10: a `reply` or `prompt` call whose chosen text contains a
replacement field `(key)` absent from the slots dict raises a
`KeyError` (for some missing key of the template) and returns the
responder unchanged — no partial action is appended to
`client_actions`. -/
theorem missing_slot_key_no_action (r : DialogueResponder) (text : TextArg)
    (idx : Nat) (t : String) (ks : List String) (k : String)
    (hc : DialogueResponder.choose text idx = .ok t)
    (htk : templateKeys t = some ks) (hk : k ∈ ks)
    (hm : lookupStr r.slots k = none) :
    (∃ k1, r.reply text idx = (r, some (.keyError k1))) ∧
    (∃ k2, r.prompt text idx = (r, some (.keyError k2))) := by
  obtain ⟨k0, hk0⟩ :=
    formatLoop_missing_key r.slots k hm t.data .lit ks htk hk
  have hpf : pyFormat t r.slots = .error (.keyError k0) := by
    unfold pyFormat
    rw [hk0]
    rfl
  constructor
  · exact ⟨k0, by
      simp [DialogueResponder.reply, DialogueResponder.replyAux, hc, hpf]⟩
  · exact ⟨k0, by
      simp [DialogueResponder.prompt, DialogueResponder.replyAux, hc, hpf]⟩

/-- C10 instantiated: replying with a template naming a slot that is
not bound leaves the empty action list empty and raises `KeyError`. -/
theorem missing_slot_key_no_action_witness :
    (∃ k1, (⟨[("name", "Ana")], []⟩ : DialogueResponder).reply
        (.str "Hi {user}") 0
      = (⟨[("name", "Ana")], []⟩, some (.keyError k1))) ∧
    (∃ k2, (⟨[("name", "Ana")], []⟩ : DialogueResponder).prompt
        (.str "Hi {user}") 0
      = (⟨[("name", "Ana")], []⟩, some (.keyError k2))) :=
  missing_slot_key_no_action ⟨[("name", "Ana")], []⟩ (.str "Hi {user}") 0
    "Hi {user}" ["user"] "user" rfl rfl (by simp) rfl
